import Mathlib

/-!
Shallow embedding of `bq_cli.py` (a CLI that creates a BigQuery table from a
CSV header and/or appends the CSV rows to it), together with proofs of the
specification claims about it.

The embedding follows the Python source function by function:
* `parse_table_id_using_defaults` — the identifier resolver (source lines 13–37);
* `generate_create_table_sql` — the DDL generator (lines 45–57);
* the row-normalization steps inside `upload_to_bigquery` (lines 83–96),
  modelled by `addMissingColumns` / `normalize`;
* the load-job part of `upload_to_bigquery` (lines 98–109);
* `main` — the CLI orchestrator (lines 112–263), modelled as a function from
  parsed arguments and an abstract external world to an exit outcome and a
  trace of boundary events.
-/

namespace BqCli

/-! ### Python-level helpers

`pySplitDot` models the Python call `table_id.split(".")`: splitting on every single
`.` character, never returning an empty list (`"".split(".") == [""]`).

`truthy` models Python truthiness of an `Optional[str]` value: `None` and the
empty string are falsy (the source tests defaults with `if not default_project`).
-/

def pySplitDot (s : String) : List String :=
  (s.toList.splitOn '.').map (fun cs => String.mk cs)

def truthy : Option String → Bool
  | none => false
  | some s => !(s == "")

/-! ### Identifier Resolver (`parse_table_id_using_defaults`, lines 13–37) -/

inductive ResolveError where
  | MissingProject
  | MissingDefaults
  | InvalidLocatorFormat
  deriving DecidableEq, Repr

def parse_table_id_using_defaults (table_id : String)
    (default_project : Option String) (default_dataset : Option String) :
    Except ResolveError (String × String × String) :=
  match pySplitDot table_id with
  | [p, d, t] => Except.ok (p, d, t)
  | [d, t] =>
    if !truthy default_project then Except.error ResolveError.MissingProject
    else Except.ok (default_project.getD "", d, t)
  | [t] =>
    if !truthy default_project || !truthy default_dataset then
      Except.error ResolveError.MissingDefaults
    else Except.ok (default_project.getD "", default_dataset.getD "", t)
  | _ => Except.error ResolveError.InvalidLocatorFormat

inductive Raw where
  | rstr (s : String)
  | rnan
  | rnone
  deriving DecidableEq, Repr

/-- `str(value)` as applied by `df.astype(str)` to the cell values we model. -/
def rawToText : Raw → String
  | .rstr s => s
  | .rnan => "nan"
  | .rnone => "None"

/-- One cell of `df_filtered.replace(["Nan", "NaN", "nan", "None"], None)`
(line 96), applied after the cast to text (line 95): the four exact strings
become null, everything else is kept. -/
def normalizeCell (s : String) : Option String :=
  if s = "Nan" ∨ s = "NaN" ∨ s = "nan" ∨ s = "None" then none else some s

/-- Lines 87–89: `for col in bq_columns: if col not in df.columns: df[col] = None`.
Each missing target column is appended to the frame with `None` in every row. -/
def addMissingColumns : List String → List (List Raw) → List String →
    List String × List (List Raw)
  | cols, rows, [] => (cols, rows)
  | cols, rows, c :: bq =>
    if c ∈ cols then addMissingColumns cols rows bq
    else addMissingColumns (cols ++ [c]) (rows.map (fun r => r ++ [Raw.rnone])) bq

/-- Column selection `df[col]` for one row: the value at the (first) position
of `col` in the column list of the frame. -/
def getCell (cols : List String) (row : List Raw) (c : String) : Raw :=
  row.getD (cols.indexOf c) Raw.rnone

/-- Lines 87–96 of `upload_to_bigquery`: add the missing target columns,
project every row to `bq_columns` in table order (`df[bq_columns]`), cast each
cell to text (`astype(str)`), and fold the four sentinel strings to null
(`replace`).  Each output row is an ordered association list keyed by the
target columns. -/
def normalize (dfCols : List String) (dfRows : List (List Raw))
    (bqCols : List String) : List (List (String × Option String)) :=
  (addMissingColumns dfCols dfRows bqCols).2.map (fun r =>
    bqCols.map (fun c =>
      (c, normalizeCell (rawToText
        (getCell (addMissingColumns dfCols dfRows bqCols).1 r c)))))

def cellToRaw : Option String → Raw
  | some s => Raw.rstr s
  | none => Raw.rnone

def denormRow (nr : List (String × Option String)) : List Raw :=
  nr.map (fun p => cellToRaw p.2)

inductive WriteDisposition where
  | WRITE_APPEND
  | WRITE_TRUNCATE
  | WRITE_EMPTY
  deriving DecidableEq, Repr

structure LoadJobConfig where
  write_disposition : WriteDisposition
  deriving DecidableEq, Repr

/-- Lines 83–109 of `upload_to_bigquery` after the schema fetch: normalize the
frame against the table columns, build the load-job configuration
(`WRITE_APPEND`), submit, and return the row count: the `output_rows` of the job
when the warehouse reports one, else `len(df_filtered)`.  The result bundles
the job configuration, the submitted frame and the returned count. -/
def upload_to_bigquery (bq_columns dfCols : List String)
    (dfRows : List (List Raw)) (output_rows : Option Nat) :
    LoadJobConfig × List (List (String × Option String)) × Nat :=
  let df_filtered := normalize dfCols dfRows bq_columns
  let job_config : LoadJobConfig := ⟨WriteDisposition.WRITE_APPEND⟩
  (job_config, df_filtered,
    match output_rows with
    | some rows => rows
    | none => df_filtered.length)

def generate_create_table_sql (project_id dataset_id table_name : String)
    (columns : List String) (replace : Bool) : String :=
  let fields := String.intercalate ",\n  "
    (columns.map (fun c => "`" ++ c ++ "` STRING"))
  let verb := if replace then "CREATE OR REPLACE TABLE" else "CREATE TABLE"
  verb ++ " `" ++ project_id ++ "." ++ dataset_id ++ "." ++ table_name ++
    "` (\n  " ++ fields ++ "\n);"

/-! ### CLI Orchestrator (`main`, lines 112–263)

`main` is modelled as a function from the parsed CLI arguments and an
abstract external world (client construction, CSV reads, warehouse responses)
to an exit outcome — `some code` for `sys.exit(code)` / `typer.Exit(code)`,
`none` for a run that falls off the end with exit status 0 — together with
the ordered trace of boundary operations the run attempted.
-/

inductive Event where
  | readHeader
  | execCreate (sql : String)
  | checkExists (full_table_id : String)
  | readCsv
  | loadJob
  deriving DecidableEq, Repr

inductive CreateResult where
  | ok
  | badRequest
  | apiError
  deriving DecidableEq, Repr

inductive LoadResult where
  | ok (output_rows : Option Nat)
  | badRequest
  | apiError
  deriving DecidableEq, Repr

structure Args where
  csv : Option String
  table_id : Option String
  project_id : Option String
  dataset : Option String
  table_name : Option String
  mode : String
  replace : Bool
  print_sql : Bool

structure World where
  clientOk : Bool
  clientProject : String
  headerResult : Except String (List String)
  csvResult : Except String (List String × List (List Raw))
  tableExists : String → Bool
  createResult : CreateResult
  loadResult : LoadResult

/-- Line 184: `default_project = project_id or client.project`. -/
def mainDefaultProject (a : Args) (w : World) : String :=
  if truthy a.project_id then a.project_id.getD "" else w.clientProject

/-- Lines 185–204: resolve the locator; `ValueError` from the resolver maps
to exit 2, a missing `--dataset`/`--table-name` pair maps to exit 1. -/
def resolveStep (a : Args) (w : World) : Except Nat (String × String × String) :=
  if truthy a.table_id then
    match parse_table_id_using_defaults (a.table_id.getD "")
        (some (mainDefaultProject a w)) a.dataset with
    | Except.ok triple => Except.ok triple
    | Except.error _ => Except.error 2
  else
    if !truthy a.dataset || !truthy a.table_name then Except.error 1
    else Except.ok (mainDefaultProject a w, a.dataset.getD "", a.table_name.getD "")

/-- Lines 209–234: the CREATE stage.  Read the CSV header (exit 3 on
failure), render and print the statement, and — unless `--print-sql` — execute
it (exit 4 on a syntax error, exit 5 on another API error). -/
def createStage (a : Args) (w : World)
    (project_id dataset_id table_name : String) : Option Nat × List Event :=
  match w.headerResult with
  | Except.error _ => (some 3, [Event.readHeader])
  | Except.ok columns =>
    let sql := generate_create_table_sql project_id dataset_id table_name
      columns a.replace
    if !a.print_sql then
      match w.createResult with
      | CreateResult.ok => (none, [Event.readHeader, Event.execCreate sql])
      | CreateResult.badRequest => (some 4, [Event.readHeader, Event.execCreate sql])
      | CreateResult.apiError => (some 5, [Event.readHeader, Event.execCreate sql])
    else (none, [Event.readHeader])

/-- Lines 237–263: the UPLOAD stage.  Check existence (exit 6 when the table
is missing), read the full CSV (exit 7 on failure), then load (exit 8 on a
rejected load, exit 9 on another API error). -/
def uploadStage (w : World) (full_table_id : String) : Option Nat × List Event :=
  if !(w.tableExists full_table_id) then (some 6, [Event.checkExists full_table_id])
  else
    match w.csvResult with
    | Except.error _ => (some 7, [Event.checkExists full_table_id, Event.readCsv])
    | Except.ok _ =>
      match w.loadResult with
      | LoadResult.ok _ =>
        (none, [Event.checkExists full_table_id, Event.readCsv, Event.loadJob])
      | LoadResult.badRequest =>
        (some 8, [Event.checkExists full_table_id, Event.readCsv, Event.loadJob])
      | LoadResult.apiError =>
        (some 9, [Event.checkExists full_table_id, Event.readCsv, Event.loadJob])

/-- Lines 209–263: the two stages in sequence; a CREATE-stage exit ends the
run before the UPLOAD stage. -/
def stagesRun (a : Args) (w : World)
    (project_id dataset_id table_name : String) : Option Nat × List Event :=
  let cres := if a.mode = "create" ∨ a.mode = "both"
    then createStage a w project_id dataset_id table_name else (none, [])
  match cres.1 with
  | some code => (some code, cres.2)
  | none =>
    if a.mode = "upload" ∨ a.mode = "both" then
      let ures := uploadStage w
        (project_id ++ "." ++ dataset_id ++ "." ++ table_name)
      (ures.1, cres.2 ++ ures.2)
    else (none, cres.2)

/-- Lines 158–263: flag validation (exit 1), client construction (exit 1),
locator resolution, then the stages. -/
def mainRun (a : Args) (w : World) : Option Nat × List Event :=
  if ¬ (a.mode = "create" ∨ a.mode = "upload" ∨ a.mode = "both") then (some 1, [])
  else if !truthy a.csv then (some 1, [])
  else if !w.clientOk then (some 1, [])
  else
    match resolveStep a w with
    | Except.error code => (some code, [])
    | Except.ok (project_id, dataset_id, table_name) =>
      stagesRun a w project_id dataset_id table_name

/-! Sample arguments and worlds used by the orchestrator witnesses. -/

def sampleRows : List (List Raw) := [[Raw.rstr "1"]]

def argsUpload : Args :=
  ⟨some "data.csv", some "p.d.t", none, none, none, "upload", false, false⟩

def worldMissingTable : World :=
  ⟨true, "proj", Except.ok ["a"], Except.ok (["a"], sampleRows),
    fun _ => false, CreateResult.ok, LoadResult.ok none⟩

def argsBoth : Args :=
  ⟨some "data.csv", some "p.d.t", none, none, none, "both", false, false⟩

def worldHeaderFail : World :=
  ⟨true, "proj", Except.error "header boom", Except.ok (["a"], sampleRows),
    fun _ => true, CreateResult.ok, LoadResult.ok none⟩

def argsBothPrint : Args :=
  ⟨some "data.csv", some "p.d.t", none, none, none, "both", false, true⟩

def worldAllOk : World :=
  ⟨true, "proj", Except.ok ["a"], Except.ok (["a"], sampleRows),
    fun _ => true, CreateResult.ok, LoadResult.ok (some 1)⟩

/-! Reduction lemmas for the orchestrator. -/

lemma truthy_getD_ne {o : Option String} (h : truthy o = true) : o.getD "" ≠ "" := by
  cases o with
  | none => simp [truthy] at h
  | some s =>
    simp only [truthy, Bool.not_eq_true', beq_eq_false_iff_ne, ne_eq] at h
    simpa using h

/-- C3. Resolver raises-iff: `parse_table_id_using_defaults` fails if and only
if (a) the locator splits into 2 segments and `default_project` is absent
(Python-falsy: `None` or empty), with error `MissingProject`; or (b) 1 segment
and either default is absent, with error `MissingDefaults`; or (c) 0 or more
than 3 segments, with error `InvalidLocatorFormat`. Otherwise it returns a
(project, dataset, table) triple. -/
theorem resolve_raises_iff (table_id : String) (dp dd : Option String) :
    (parse_table_id_using_defaults table_id dp dd =
        Except.error ResolveError.MissingProject ↔
      (pySplitDot table_id).length = 2 ∧ truthy dp = false) ∧
    (parse_table_id_using_defaults table_id dp dd =
        Except.error ResolveError.MissingDefaults ↔
      (pySplitDot table_id).length = 1 ∧ (truthy dp = false ∨ truthy dd = false)) ∧
    (parse_table_id_using_defaults table_id dp dd =
        Except.error ResolveError.InvalidLocatorFormat ↔
      ((pySplitDot table_id).length = 0 ∨ 3 < (pySplitDot table_id).length)) ∧
    ((∃ pr ds tb, parse_table_id_using_defaults table_id dp dd =
        Except.ok (pr, ds, tb)) ↔
      ¬ (((pySplitDot table_id).length = 2 ∧ truthy dp = false) ∨
         ((pySplitDot table_id).length = 1 ∧ (truthy dp = false ∨ truthy dd = false)) ∨
         ((pySplitDot table_id).length = 0 ∨ 3 < (pySplitDot table_id).length))) := by
  rcases hps : pySplitDot table_id with _ | ⟨a, _ | ⟨b, _ | ⟨c, _ | ⟨e, l⟩⟩⟩⟩ <;>
    cases hdp : truthy dp <;> cases hdd : truthy dd <;>
      simp [parse_table_id_using_defaults, hps, hdp, hdd]

/-- C4. A locator with exactly 3 non-empty dot-separated segments resolves to
those segments unchanged, regardless of the defaults. -/
theorem resolve_three_segments (table_id : String) (dp dd : Option String)
    (p d t : String) (hsplit : pySplitDot table_id = [p, d, t])
    (_hp : p ≠ "") (_hd : d ≠ "") (_ht : t ≠ "") :
    parse_table_id_using_defaults table_id dp dd = Except.ok (p, d, t) := by
  simp [parse_table_id_using_defaults, hsplit]

/-- Witness for C4 at the concrete locator `"proj.ds.tbl"`. -/
theorem resolve_three_segments_witness :
    parse_table_id_using_defaults "proj.ds.tbl" none none =
      Except.ok ("proj", "ds", "tbl") :=
  resolve_three_segments "proj.ds.tbl" none none "proj" "ds" "tbl"
    rfl (by decide) (by decide) (by decide)

/-- C5 counterexample: the locator `"a..b"` has 3 segments, the middle one
empty; resolution succeeds but the dataset component of the result is the
empty string, so successful resolution does not guarantee non-empty
components. -/
theorem resolve_nonempty_counterexample :
    parse_table_id_using_defaults "a..b" none none = Except.ok ("a", "", "b") ∧
      ("a", "", "b").2.1 = "" :=
  ⟨rfl, rfl⟩

/-- C5 amended: if every dot-separated segment of the locator is non-empty,
then whenever resolution succeeds all three components of the returned triple
are non-empty. (Defaults, when used, are non-empty automatically because the
code rejects falsy defaults.) -/
theorem resolve_nonempty_amended (table_id : String) (dp dd : Option String)
    (pr ds tb : String)
    (hseg : ∀ s ∈ pySplitDot table_id, s ≠ "")
    (hok : parse_table_id_using_defaults table_id dp dd = Except.ok (pr, ds, tb)) :
    pr ≠ "" ∧ ds ≠ "" ∧ tb ≠ "" := by
  rcases hps : pySplitDot table_id with _ | ⟨a, _ | ⟨b, _ | ⟨c, _ | ⟨e, l⟩⟩⟩⟩ <;>
    rw [parse_table_id_using_defaults, hps] at hok
  · simp at hok
  · rcases hdp2 : truthy dp with _ | _ <;> rcases hdd2 : truthy dd with _ | _ <;>
      rw [hdp2, hdd2] at hok <;> simp at hok
    obtain ⟨h1, h2, h3⟩ := hok
    exact ⟨h1 ▸ truthy_getD_ne hdp2, h2 ▸ truthy_getD_ne hdd2,
      h3 ▸ hseg a (by rw [hps]; simp)⟩
  · rcases hdp2 : truthy dp with _ | _ <;> rw [hdp2] at hok <;> simp at hok
    obtain ⟨h1, h2, h3⟩ := hok
    exact ⟨h1 ▸ truthy_getD_ne hdp2, h2 ▸ hseg a (by rw [hps]; simp),
      h3 ▸ hseg b (by rw [hps]; simp)⟩
  · simp at hok
    obtain ⟨h1, h2, h3⟩ := hok
    exact ⟨h1 ▸ hseg a (by rw [hps]; simp), h2 ▸ hseg b (by rw [hps]; simp),
      h3 ▸ hseg c (by rw [hps]; simp)⟩
  · simp at hok

/-- Witness for the amended C5 at the concrete locator `"proj.ds.tbl"`. -/
theorem resolve_nonempty_amended_witness :
    ("proj" : String) ≠ "" ∧ ("ds" : String) ≠ "" ∧ ("tbl" : String) ≠ "" :=
  resolve_nonempty_amended "proj.ds.tbl" none none "proj" "ds" "tbl"
    (by decide) rfl

/-! ### Row Normalizer (inside `upload_to_bigquery`, lines 83–96)

A pandas DataFrame is modelled as a column-name list `dfCols` together with
rows `dfRows`, each row a list of cell values aligned with `dfCols`.  A raw
cell is a string, a float NaN (the pandas missing-value marker, whose `str` cast
is `"nan"`), or a Python `None` (whose `str` cast is `"None"`).
-/

lemma getCell_of_not_mem {cols : List String} {r : List Raw} {c : String}
    (hlen : r.length = cols.length) (hc : c ∉ cols) :
    getCell cols r c = Raw.rnone := by
  unfold getCell
  exact List.getD_eq_default _ _ (by rw [hlen, List.indexOf_eq_length.mpr hc])

/-- The add-missing-columns pass preserves "column `c` is `None` in every
row" (and row/column alignment), for any `c` it did not just introduce with a
non-`None` value — which is all of them. -/
lemma addMissingColumns_cell_rnone (c : String) :
    ∀ (bq cols : List String) (rows : List (List Raw)),
      (∀ r ∈ rows, r.length = cols.length) →
      (∀ r ∈ rows, getCell cols r c = Raw.rnone) →
      ∀ r ∈ (addMissingColumns cols rows bq).2,
        getCell (addMissingColumns cols rows bq).1 r c = Raw.rnone := by
  intro bq
  induction bq with
  | nil => intro cols rows _ hq r hr; exact hq r hr
  | cons c0 bq ih =>
    intro cols rows hlen hq r hr
    rw [addMissingColumns] at hr ⊢
    by_cases hc0 : c0 ∈ cols
    · rw [if_pos hc0] at hr ⊢
      exact ih cols rows hlen hq r hr
    · rw [if_neg hc0] at hr ⊢
      refine ih (cols ++ [c0]) (rows.map (fun r => r ++ [Raw.rnone])) ?_ ?_ r hr
      · intro r' hr'
        obtain ⟨r0, hr0, rfl⟩ := List.mem_map.mp hr'
        simp [hlen r0 hr0]
      · intro r' hr'
        obtain ⟨r0, hr0, rfl⟩ := List.mem_map.mp hr'
        by_cases hcc : c = c0
        · subst hcc
          unfold getCell
          rw [List.indexOf_append_of_not_mem hc0]
          have h0 : List.indexOf c [c] = 0 := by simp
          rw [h0, Nat.add_zero, ← hlen r0 hr0,
            List.getD_append_right _ _ _ _ (le_refl _), Nat.sub_self]
          rfl
        · by_cases hmem : c ∈ cols
          · unfold getCell at hq ⊢
            rw [List.indexOf_append_of_mem hmem,
              List.getD_append _ _ _ _ (lt_of_lt_of_le
                (List.indexOf_lt_length.mpr hmem) (le_of_eq (hlen r0 hr0).symm))]
            exact hq r0 hr0
          · refine getCell_of_not_mem (by simp [hlen r0 hr0]) ?_
            simp [hmem, hcc]

/-- C2. Structural reconciliation: the keys of every normalized row are exactly
the target columns in target order; every entry whose key is a target column
absent from the raw column set is null; and every key of a normalized row is
a target column (raw columns outside the target set are dropped). -/
theorem normalize_structural (dfCols : List String) (dfRows : List (List Raw))
    (bqCols : List String)
    (hlen : ∀ r ∈ dfRows, r.length = dfCols.length) :
    (∀ nr ∈ normalize dfCols dfRows bqCols, nr.map Prod.fst = bqCols) ∧
    (∀ nr ∈ normalize dfCols dfRows bqCols, ∀ p ∈ nr,
      p.1 ∉ dfCols → p.2 = none) ∧
    (∀ nr ∈ normalize dfCols dfRows bqCols, ∀ p ∈ nr, p.1 ∈ bqCols) := by
  refine ⟨?_, ?_, ?_⟩
  · intro nr hnr
    obtain ⟨r, _, rfl⟩ := List.mem_map.mp hnr
    rw [List.map_map]
    exact List.map_id bqCols
  · intro nr hnr p hp hout
    obtain ⟨r, hr, rfl⟩ := List.mem_map.mp hnr
    obtain ⟨c, hc, rfl⟩ := List.mem_map.mp hp
    simp only at hout ⊢
    rw [addMissingColumns_cell_rnone c bqCols dfCols dfRows hlen
      (fun r0 hr0 => getCell_of_not_mem (hlen r0 hr0) hout) r hr]
    rfl
  · intro nr hnr p hp
    obtain ⟨r, _, rfl⟩ := List.mem_map.mp hnr
    obtain ⟨c, hc, rfl⟩ := List.mem_map.mp hp
    exact hc

/-- Witness for C2 at the scenario given in the spec: header `["a","b"]`, table columns
`["a","b","c"]`; the key list of the normalized row is `["a","b","c"]`. -/
theorem normalize_structural_witness :
    ([("a", some "1"), ("b", some "2"), ("c", (none : Option String))] :
        List (String × Option String)).map Prod.fst = ["a", "b", "c"] :=
  (normalize_structural ["a", "b"] [[Raw.rstr "1", Raw.rstr "2"]]
      ["a", "b", "c"] (by decide)).1
    [("a", some "1"), ("b", some "2"), ("c", none)] (by decide)

/-- C1 counterexample: the raw cell `"NAN"` matches `"nan"` case-insensitively
(its character-wise lowercasing is `"nan"`), yet normalization keeps it as the
text `"NAN"` instead of folding it to null — the `replace` list on line 96
contains only the exact strings `"Nan"`, `"NaN"`, `"nan"`, `"None"`. -/
theorem null_folding_counterexample :
    "NAN".toList.map Char.toLower = "nan".toList ∧
      normalize ["a"] [[Raw.rstr "NAN"]] ["a"] = [[("a", some "NAN")]] := by
  exact ⟨by decide, rfl⟩

/-- C1 amended: a normalized cell is null exactly when its text
representation is one of the four exact strings `"Nan"`, `"NaN"`, `"nan"`,
`"None"` (case-sensitive); and every cell of every normalized row is the
image of some raw value under the cast-to-text-then-fold step. -/
theorem null_folding_exact (dfCols : List String) (dfRows : List (List Raw))
    (bqCols : List String) :
    (∀ s, normalizeCell s = none ↔
      (s = "Nan" ∨ s = "NaN" ∨ s = "nan" ∨ s = "None")) ∧
    (∀ nr ∈ normalize dfCols dfRows bqCols, ∀ p ∈ nr,
      ∃ v : Raw, p.2 = normalizeCell (rawToText v)) := by
  constructor
  · intro s
    unfold normalizeCell
    split
    · simp_all
    · simp_all
  · intro nr hnr p hp
    obtain ⟨r, _, rfl⟩ := List.mem_map.mp hnr
    obtain ⟨c, _, rfl⟩ := List.mem_map.mp hp
    exact ⟨getCell (addMissingColumns dfCols dfRows bqCols).1 r c, rfl⟩

/-- Witness for the amended C1: on the one-cell frame `[["x"]]` with target
column `"a"`, the sole normalized cell is the fold of the text of some raw
value. -/
theorem null_folding_exact_witness :
    ∃ v : Raw, (some "x" : Option String) = normalizeCell (rawToText v) :=
  (null_folding_exact ["a"] [[Raw.rstr "x"]] ["a"]).2
    [("a", some "x")] (by decide) ("a", some "x") (by decide)

/-! ### Idempotence of normalization (claim C6)

A normalized row feeds back into pandas as a frame whose cells are either a
string or a true null (`None`); `denormRow` performs that conversion so that
`normalize` can be applied a second time.
-/

lemma addMissingColumns_of_subset :
    ∀ (bq cols : List String) (rows : List (List Raw)),
      (∀ c ∈ bq, c ∈ cols) → addMissingColumns cols rows bq = (cols, rows) := by
  intro bq
  induction bq with
  | nil => intro cols rows _; rfl
  | cons c0 bq ih =>
    intro cols rows hsub
    rw [addMissingColumns, if_pos (hsub c0 (by simp))]
    exact ih cols rows (fun c hc => hsub c (by simp [hc]))

lemma getCell_map_self (bq : List String) (h : String → Raw) (c : String)
    (hc : c ∈ bq) : getCell bq (bq.map h) c = h c := by
  unfold getCell
  have hlt : bq.indexOf c < bq.length := List.indexOf_lt_length.mpr hc
  rw [List.getD_eq_getElem _ _ (by simpa using hlt)]
  simp [List.getElem_indexOf hlt]

lemma normalizeCell_roundtrip (s : String) :
    normalizeCell (rawToText (cellToRaw (normalizeCell s))) = normalizeCell s := by
  by_cases hs : s = "Nan" ∨ s = "NaN" ∨ s = "nan" ∨ s = "None"
  · rw [show normalizeCell s = none from if_pos hs]
    rfl
  · rw [show normalizeCell s = some s from if_neg hs]
    exact if_neg hs

/-- C6. Normalizer idempotence: re-normalizing the output of `normalize`
(converted back to a raw frame whose columns are exactly the target columns)
returns it unchanged: `normalize (normalize rows) = normalize rows`. -/
theorem normalize_idempotent (dfCols : List String) (dfRows : List (List Raw))
    (bqCols : List String) :
    normalize bqCols ((normalize dfCols dfRows bqCols).map denormRow) bqCols =
      normalize dfCols dfRows bqCols := by
  unfold normalize
  rw [addMissingColumns_of_subset bqCols bqCols _ (fun c hc => hc)]
  simp only [List.map_map]
  apply List.map_congr_left
  intro r _
  apply List.map_congr_left
  intro c hc
  simp only [Function.comp_def, denormRow, List.map_map]
  rw [getCell_map_self bqCols _ c hc]
  simp only [normalizeCell_roundtrip]

/-! ### Load job (`upload_to_bigquery`, lines 98–109) -/

lemma addMissingColumns_rows_length :
    ∀ (bq cols : List String) (rows : List (List Raw)),
      (addMissingColumns cols rows bq).2.length = rows.length := by
  intro bq
  induction bq with
  | nil => intro cols rows; rfl
  | cons c0 bq ih =>
    intro cols rows
    rw [addMissingColumns]
    by_cases hc0 : c0 ∈ cols
    · rw [if_pos hc0]
      exact ih cols rows
    · rw [if_neg hc0, ih]
      simp

lemma normalize_length (dfCols : List String) (dfRows : List (List Raw))
    (bqCols : List String) :
    (normalize dfCols dfRows bqCols).length = dfRows.length := by
  unfold normalize
  rw [List.length_map]
  exact addMissingColumns_rows_length bqCols dfCols dfRows

/-- C9. The load returns the warehouse-reported row count when present and
the number of submitted rows otherwise, and the write disposition of the load
job is always `WRITE_APPEND`. -/
theorem loadRows_count_and_append (bq_columns dfCols : List String)
    (dfRows : List (List Raw)) (output_rows : Option Nat) :
    (upload_to_bigquery bq_columns dfCols dfRows output_rows).1.write_disposition =
        WriteDisposition.WRITE_APPEND ∧
    (upload_to_bigquery bq_columns dfCols dfRows output_rows).2.2 =
      match output_rows with
      | some rows => rows
      | none => dfRows.length := by
  refine ⟨rfl, ?_⟩
  cases output_rows with
  | some rows => rfl
  | none => simpa [upload_to_bigquery] using normalize_length dfCols dfRows bq_columns

/-! ### DDL Generator (`generate_create_table_sql`, lines 45–57) -/

lemma mainRun_eq_stages {a : Args} {w : World} {p d t : String}
    (hvalid : a.mode = "create" ∨ a.mode = "upload" ∨ a.mode = "both")
    (hcsv : truthy a.csv = true) (hclient : w.clientOk = true)
    (hres : resolveStep a w = Except.ok (p, d, t)) :
    mainRun a w = stagesRun a w p d t := by
  unfold mainRun
  rw [if_neg (not_not_intro hvalid), hcsv, hclient, hres]
  rfl

lemma stagesRun_upload_only {a : Args} {w : World} {p d t : String}
    (hm : a.mode = "upload") :
    stagesRun a w p d t = uploadStage w (p ++ "." ++ d ++ "." ++ t) := by
  simp only [stagesRun]
  rw [if_neg (by simp [hm]), if_pos (Or.inl hm)]
  rfl

lemma stagesRun_create_abort {a : Args} {w : World} {p d t : String}
    {code : Nat} {evs : List Event} (hm : a.mode = "create" ∨ a.mode = "both")
    (hcs : createStage a w p d t = (some code, evs)) :
    stagesRun a w p d t = (some code, evs) := by
  simp only [stagesRun]
  rw [if_pos hm, hcs]

lemma createStage_abort_shape (a : Args) (w : World) (p d t : String)
    (hfail : (∃ msg, w.headerResult = Except.error msg) ∨
      (a.print_sql = false ∧ (w.createResult = CreateResult.badRequest ∨
        w.createResult = CreateResult.apiError))) :
    ∃ code evs, createStage a w p d t = (some code, evs) ∧
      (code = 3 ∨ code = 4 ∨ code = 5) ∧
      ∀ e ∈ evs, e = Event.readHeader ∨ ∃ sql, e = Event.execCreate sql := by
  cases hh : w.headerResult with
  | error msg =>
    refine ⟨3, [Event.readHeader], ?_, by simp, by simp⟩
    unfold createStage
    rw [hh]
  | ok columns =>
    rcases hfail with ⟨msg, hmsg⟩ | ⟨hps, hcr⟩
    · rw [hh] at hmsg
      exact absurd hmsg (by simp)
    · rcases hcr with hcr | hcr
      · refine ⟨4, [Event.readHeader,
          Event.execCreate (generate_create_table_sql p d t columns a.replace)],
          ?_, by simp, ?_⟩
        · unfold createStage
          rw [hh, hps, hcr]
          rfl
        · intro e he
          simp only [List.mem_cons, List.mem_singleton, List.not_mem_nil,
            or_false] at he
          rcases he with rfl | rfl
          · exact Or.inl rfl
          · exact Or.inr ⟨_, rfl⟩
      · refine ⟨5, [Event.readHeader,
          Event.execCreate (generate_create_table_sql p d t columns a.replace)],
          ?_, by simp, ?_⟩
        · unfold createStage
          rw [hh, hps, hcr]
          rfl
        · intro e he
          simp only [List.mem_cons, List.mem_singleton, List.not_mem_nil,
            or_false] at he
          rcases he with rfl | rfl
          · exact Or.inl rfl
          · exact Or.inr ⟨_, rfl⟩

lemma createStage_print_sql_trace {a : Args} {w : World} {p d t : String}
    {columns : List String} (hps : a.print_sql = true)
    (hh : w.headerResult = Except.ok columns) :
    createStage a w p d t = (none, [Event.readHeader]) := by
  unfold createStage
  rw [hh, hps]
  rfl

lemma createStage_no_execCreate_of_print_sql (a : Args) (w : World)
    (p d t : String) (hps : a.print_sql = true) (sql : String) :
    Event.execCreate sql ∉ (createStage a w p d t).2 := by
  unfold createStage
  cases hh : w.headerResult with
  | error msg => simp
  | ok columns =>
    rw [hps]
    simp

lemma uploadStage_no_execCreate (w : World) (f sql : String) :
    Event.execCreate sql ∉ (uploadStage w f).2 := by
  unfold uploadStage
  by_cases hte : w.tableExists f
  · rw [hte]
    cases w.csvResult with
    | error msg => simp
    | ok df => cases w.loadResult <;> simp
  · rw [Bool.not_eq_true] at hte
    rw [hte]
    simp

lemma uploadStage_full_trace {w : World} {f : String}
    {df : List String × List (List Raw)}
    (hte : w.tableExists f = true) (hcsvr : w.csvResult = Except.ok df) :
    (uploadStage w f).2 = [Event.checkExists f, Event.readCsv, Event.loadJob] := by
  unfold uploadStage
  rw [hte, hcsvr]
  cases w.loadResult <;> rfl

lemma stagesRun_trace_sub (a : Args) (w : World) (p d t : String) (e : Event)
    (he : e ∈ (stagesRun a w p d t).2) :
    e ∈ (createStage a w p d t).2 ∨
      e ∈ (uploadStage w (p ++ "." ++ d ++ "." ++ t)).2 := by
  simp only [stagesRun] at he
  by_cases hm : a.mode = "create" ∨ a.mode = "both"
  · rw [if_pos hm] at he
    rcases hc : createStage a w p d t with ⟨ocode, evs⟩
    rw [hc] at he
    cases ocode with
    | some code =>
      left
      exact he
    | none =>
      by_cases hu : a.mode = "upload" ∨ a.mode = "both"
      · rw [if_pos hu] at he
        rcases List.mem_append.mp he with h | h
        · left
          exact h
        · right
          exact h
      · rw [if_neg hu] at he
        left
        exact he
  · rw [if_neg hm] at he
    by_cases hu : a.mode = "upload" ∨ a.mode = "both"
    · rw [if_pos hu] at he
      right
      exact List.mem_append.mp he |>.resolve_left (by simp)
    · rw [if_neg hu] at he
      simp at he

/-- C7. In mode `upload` against a table the warehouse does not have, the run
exits with code 6 after only the existence check: the trace is exactly
`[checkExists]`, so no CSV read (neither the full read nor the header read)
is performed before termination. -/
theorem upload_missing_table_exits_6 (a : Args) (w : World) (p d t : String)
    (hmode : a.mode = "upload") (hcsv : truthy a.csv = true)
    (hclient : w.clientOk = true)
    (hres : resolveStep a w = Except.ok (p, d, t))
    (hex : w.tableExists (p ++ "." ++ d ++ "." ++ t) = false) :
    mainRun a w = (some 6, [Event.checkExists (p ++ "." ++ d ++ "." ++ t)]) ∧
    Event.readCsv ∉ (mainRun a w).2 ∧
    Event.readHeader ∉ (mainRun a w).2 := by
  have hmain : mainRun a w = stagesRun a w p d t :=
    mainRun_eq_stages (Or.inr (Or.inl hmode)) hcsv hclient hres
  have hup : uploadStage w (p ++ "." ++ d ++ "." ++ t) =
      (some 6, [Event.checkExists (p ++ "." ++ d ++ "." ++ t)]) := by
    unfold uploadStage
    rw [hex]
    rfl
  rw [hmain, stagesRun_upload_only hmode, hup]
  exact ⟨rfl, by simp, by simp⟩

/-- Witness for C7: a concrete `upload` run against a world with no tables
exits 6 with only the existence check in the trace. -/
theorem upload_missing_table_exits_6_witness :
    mainRun argsUpload worldMissingTable =
      (some 6, [Event.checkExists "p.d.t"]) ∧
    Event.readCsv ∉ (mainRun argsUpload worldMissingTable).2 ∧
    Event.readHeader ∉ (mainRun argsUpload worldMissingTable).2 :=
  upload_missing_table_exits_6 argsUpload worldMissingTable "p" "d" "t"
    rfl rfl rfl rfl rfl

/-- C8. In mode `both`, a Create-stage failure — header read failure, or
(when execution is not suppressed) a statement syntax error or create-stage
API error — terminates the run with the corresponding exit code (3, 4 or 5)
and the Upload stage never starts: the trace contains no existence check, no
full CSV read and no load. -/
theorem create_failure_aborts_run (a : Args) (w : World) (p d t : String)
    (hmode : a.mode = "both") (hcsv : truthy a.csv = true)
    (hclient : w.clientOk = true)
    (hres : resolveStep a w = Except.ok (p, d, t))
    (hfail : (∃ msg, w.headerResult = Except.error msg) ∨
      (a.print_sql = false ∧ (w.createResult = CreateResult.badRequest ∨
        w.createResult = CreateResult.apiError))) :
    ((mainRun a w).1 = some 3 ∨ (mainRun a w).1 = some 4 ∨
      (mainRun a w).1 = some 5) ∧
    (∀ f, Event.checkExists f ∉ (mainRun a w).2) ∧
    Event.readCsv ∉ (mainRun a w).2 ∧
    Event.loadJob ∉ (mainRun a w).2 := by
  have hmain : mainRun a w = stagesRun a w p d t :=
    mainRun_eq_stages (Or.inr (Or.inr hmode)) hcsv hclient hres
  obtain ⟨code, evs, hcs, hcode, hevs⟩ := createStage_abort_shape a w p d t hfail
  rw [hmain, stagesRun_create_abort (Or.inr hmode) hcs]
  refine ⟨?_, ?_, ?_, ?_⟩
  · rcases hcode with rfl | rfl | rfl
    · exact Or.inl rfl
    · exact Or.inr (Or.inl rfl)
    · exact Or.inr (Or.inr rfl)
  · intro f hf
    rcases hevs _ hf with h | ⟨sql, h⟩ <;> simp at h
  · intro hf
    rcases hevs _ hf with h | ⟨sql, h⟩ <;> simp at h
  · intro hf
    rcases hevs _ hf with h | ⟨sql, h⟩ <;> simp at h

/-- Witness for C8: a concrete `both` run whose header read fails exits with
code 3 and no upload-stage event in the trace. -/
theorem create_failure_aborts_run_witness :
    ((mainRun argsBoth worldHeaderFail).1 = some 3 ∨
      (mainRun argsBoth worldHeaderFail).1 = some 4 ∨
      (mainRun argsBoth worldHeaderFail).1 = some 5) ∧
    (∀ f, Event.checkExists f ∉ (mainRun argsBoth worldHeaderFail).2) ∧
    Event.readCsv ∉ (mainRun argsBoth worldHeaderFail).2 ∧
    Event.loadJob ∉ (mainRun argsBoth worldHeaderFail).2 :=
  create_failure_aborts_run argsBoth worldHeaderFail "p" "d" "t"
    rfl rfl rfl rfl (Or.inl ⟨"header boom", rfl⟩)

/-- C10. With `--print-sql` set, no create statement is ever executed against
the warehouse, in any mode and world; yet in mode `both` (when the header
read succeeds, the table exists and the CSV reads) the Upload stage still
runs in full: the trace is exactly header read, existence check, full CSV
read, load. -/
theorem print_sql_skips_create_not_upload :
    (∀ (a : Args) (w : World), a.print_sql = true →
      ∀ sql, Event.execCreate sql ∉ (mainRun a w).2) ∧
    (∀ (a : Args) (w : World) (p d t : String) (columns : List String)
      (df : List String × List (List Raw)),
      a.mode = "both" → a.print_sql = true → truthy a.csv = true →
      w.clientOk = true → resolveStep a w = Except.ok (p, d, t) →
      w.headerResult = Except.ok columns →
      w.tableExists (p ++ "." ++ d ++ "." ++ t) = true →
      w.csvResult = Except.ok df →
      (mainRun a w).2 = [Event.readHeader,
        Event.checkExists (p ++ "." ++ d ++ "." ++ t),
        Event.readCsv, Event.loadJob]) := by
  constructor
  · intro a w hps sql he
    unfold mainRun at he
    split at he
    · simp at he
    · split at he
      · simp at he
      · split at he
        · simp at he
        · split at he
          · simp at he
          · rcases stagesRun_trace_sub _ _ _ _ _ _ he with h | h
            · exact createStage_no_execCreate_of_print_sql _ _ _ _ _ hps sql h
            · exact uploadStage_no_execCreate _ _ sql h
  · intro a w p d t columns df hmode hps hcsv hclient hres hhr hte hcsvr
    have hmain : mainRun a w = stagesRun a w p d t :=
      mainRun_eq_stages (Or.inr (Or.inr hmode)) hcsv hclient hres
    have hstages : stagesRun a w p d t =
        ((uploadStage w (p ++ "." ++ d ++ "." ++ t)).1,
          [Event.readHeader] ++ (uploadStage w (p ++ "." ++ d ++ "." ++ t)).2) := by
      simp only [stagesRun]
      rw [if_pos (Or.inr hmode), createStage_print_sql_trace hps hhr,
        if_pos (Or.inr hmode)]
    rw [hmain, hstages]
    simp only [List.cons_append, List.nil_append]
    rw [uploadStage_full_trace hte hcsvr]

/-- Witness for C10: a concrete `both` run with `--print-sql` has no
statement-execution event but a full upload trace. -/
theorem print_sql_skips_create_not_upload_witness :
    (Event.execCreate "CREATE" ∉ (mainRun argsBothPrint worldAllOk).2) ∧
    (mainRun argsBothPrint worldAllOk).2 = [Event.readHeader,
      Event.checkExists "p.d.t", Event.readCsv, Event.loadJob] :=
  ⟨print_sql_skips_create_not_upload.1 argsBothPrint worldAllOk rfl "CREATE",
   print_sql_skips_create_not_upload.2 argsBothPrint worldAllOk "p" "d" "t"
     ["a"] (["a"], sampleRows) rfl rfl rfl rfl rfl rfl rfl rfl⟩

end BqCli
